import Mathlib

/-!
Shallow embedding of the `genie-spaces-api` repository: the pydantic document
model in `src/genie_spaces_api/models.py` and the payload/error-handling logic
of `src/genie_spaces_api/client.py`, together with proofs settling the
specification claims about them.

Modelling conventions:
* Python `dict`/`list`/scalar JSON values are modelled by the inductive `Json`.
* `model_dump(exclude_none=True)` / `model_validate` are modelled by the
  per-record `to_dict` / `from_dict` functions, working on `Json` values.
* JSON text encoding and decoding (the `json` module / pydantic's JSON codec)
  is the external-library boundary; it is modelled by the executable
  `Json.render` / `Json.parse` pair below.
* Python `str.split("\n")` / `"\n".join` are modelled by `pySplit` / `pyJoin`
  on the underlying character lists.
* The UUID generator `generate_id` is an opaque external effect; constructors
  that call it receive the generated token as an explicit `genId` argument.
-/

namespace GenieSpaces

/-- JSON values as exchanged by the pydantic layer: objects keep their key
insertion order, numbers are integers (the schema has no float fields). -/
inductive Json where
  | null : Json
  | bool (b : Bool) : Json
  | num (n : Int) : Json
  | str (s : String) : Json
  | arr (elements : List Json) : Json
  | obj (members : List (String × Json)) : Json

/-- Key lookup in a JSON object member list, first match wins
(Python `dict` access; keys are unique in every object this model builds). -/
def lookupKv : List (String × Json) → String → Option Json
  | [], _ => none
  | (k, v) :: rest, key => if k = key then some v else lookupKv rest key

mutual

/-- True when a `null` value occurs anywhere in the JSON tree. -/
def Json.hasNull : Json → Bool
  | .null => true
  | .bool _ => false
  | .num _ => false
  | .str _ => false
  | .arr xs => Json.hasNullArr xs
  | .obj kvs => Json.hasNullObj kvs

/-- True when any element of the array contains a `null`. -/
def Json.hasNullArr : List Json → Bool
  | [] => false
  | j :: js => j.hasNull || Json.hasNullArr js

/-- True when any member value of the object contains a `null`. -/
def Json.hasNullObj : List (String × Json) → Bool
  | [] => false
  | (_, v) :: kvs => v.hasNull || Json.hasNullObj kvs

end

/-- True for the JSON `null` value. -/
def Json.isNull : Json → Bool
  | .null => true
  | _ => false

/-- True when the object at the root of `j` has a member named `k`. -/
def Json.hasKey (j : Json) (k : String) : Bool :=
  match j with
  | .obj kvs => (lookupKv kvs k).isSome
  | _ => false

/-- Python `s.split("\n")`: split on every newline; the empty string yields
`[""]`, consecutive separators yield empty lines. -/
def pySplit (s : String) : List String :=
  (s.data.splitOn '\n').map String.mk

/-- Python `"\n".join(lines)`. -/
def pyJoin (lines : List String) : String :=
  String.mk (List.intercalate ['\n'] (lines.map String.data))

/-- Python `"\n" in s` for the single newline character. -/
def pyContainsNl (s : String) : Bool :=
  s.data.contains '\n'

example : pySplit "a\nb\nc" = ["a", "b", "c"] := by decide
example : pySplit "" = [""] := by decide
example : pyJoin ["a", "b"] = "a\nb" := by decide
example : pyContainsNl "a\nb" = true := by decide

/-- Python truthiness-guarded wrapping `[description] if description else None`
used by the `create` factories for single-string description arguments. -/
def pyWrap : Option String → Option (List String)
  | some d => if d = "" then none else some [d]
  | none => none

/-- Python `a or b` for an optional string and a string default: the default is
used when the argument is `None` or the empty string. -/
def pyOr (v : Option String) (default : String) : String :=
  match v with
  | some s => if s = "" then default else s
  | none => default

/-- Python `a or b` when both sides are optional strings. -/
def pyOrOpt (v default : Option String) : Option String :=
  match v with
  | some s => if s = "" then default else some s
  | none => default

/-- A sample question displayed in the Space UI (`models.SampleQuestion`). -/
structure SampleQuestion where
  id : String
  question : List String
deriving DecidableEq

/-- `SampleQuestion.from_text`: split the question at newlines when it has any,
otherwise keep it as a one-element list.  `genId` is the token produced by the
opaque UUID generator, consumed when `id` is `None` or empty. -/
def SampleQuestion.from_text (question : String) (id : Option String)
    (genId : String) : SampleQuestion :=
  { id := pyOr id genId
    question := if pyContainsNl question then pySplit question else [question] }

/-- Generic space-level configuration (`models.GenieSpaceConfig`). -/
structure GenieSpaceConfig where
  sample_questions : List SampleQuestion
deriving DecidableEq

/-- Configuration for a single column within a table (`models.ColumnConfig`). -/
structure ColumnConfig where
  column_name : String
  description : Option (List String)
  synonyms : Option (List String)
  exclude : Option Bool
  get_example_values : Option Bool
  build_value_dictionary : Option Bool
deriving DecidableEq

/-- `ColumnConfig.create`: wrap a non-empty description as a one-element list,
and store each boolean flag as absent unless it is `True`. -/
def ColumnConfig.create (column_name : String) (description : Option String)
    (synonyms : Option (List String))
    (exclude get_example_values build_value_dictionary : Bool) : ColumnConfig :=
  { column_name := column_name
    description := pyWrap description
    synonyms := synonyms
    exclude := if exclude then some exclude else none
    get_example_values := if get_example_values then some get_example_values else none
    build_value_dictionary :=
      if build_value_dictionary then some build_value_dictionary else none }

/-- Configuration for a single Unity Catalog table (`models.Table`). -/
structure Table where
  identifier : String
  description : Option (List String)
  column_configs : Option (List ColumnConfig)
deriving DecidableEq

/-- `Table.create`: the description is wrapped as a one-element list. -/
def Table.create (identifier : String) (description : Option String)
    (column_configs : Option (List ColumnConfig)) : Table :=
  { identifier := identifier
    description := pyWrap description
    column_configs := column_configs }

/-- Configuration for a single metric view (`models.MetricView`). -/
structure MetricView where
  identifier : String
  description : Option (List String)
deriving DecidableEq

/-- `MetricView.create`: the description is wrapped as a one-element list. -/
def MetricView.create (identifier : String) (description : Option String) : MetricView :=
  { identifier := identifier, description := pyWrap description }

/-- Data the space can access (`models.DataSources`). -/
structure DataSources where
  tables : Option (List Table)
  metric_views : Option (List MetricView)
deriving DecidableEq

/-- Generic instructions with unformatted content (`models.TextInstruction`). -/
structure TextInstruction where
  id : String
  content : Option (List String)
deriving DecidableEq

/-- `TextInstruction.from_text`: split at newlines when the content is
non-empty, store absent content for the empty string. -/
def TextInstruction.from_text (content : String) (id : Option String)
    (genId : String) : TextInstruction :=
  { id := pyOr id genId
    content := if content = "" then none else some (pySplit content) }

/-- A parameter of a parameterized SQL query (`models.Parameter`). -/
structure Parameter where
  name : String
  type_hint : String
  description : Option (List String)
deriving DecidableEq

/-- `Parameter.create`: the description is wrapped as a one-element list. -/
def Parameter.create (name type_hint : String) (description : Option String) : Parameter :=
  { name := name, type_hint := type_hint, description := pyWrap description }

/-- An example question paired with its SQL (`models.ExampleQuestionSql`). -/
structure ExampleQuestionSql where
  id : String
  question : List String
  sql : List String
  parameters : Option (List Parameter)
  usage_guidance : Option (List String)
deriving DecidableEq

/-- `ExampleQuestionSql.create`: the question stays a one-element list, the SQL
is split at every newline, the guidance is wrapped as a one-element list. -/
def ExampleQuestionSql.create (question sql : String)
    (parameters : Option (List Parameter)) (usage_guidance : Option String)
    (id : Option String) (genId : String) : ExampleQuestionSql :=
  { id := pyOr id genId
    question := [question]
    sql := pySplit sql
    parameters := parameters
    usage_guidance := pyWrap usage_guidance }

/-- A SQL function usable in generated SQL (`models.SqlFunction`). -/
structure SqlFunction where
  id : String
  identifier : String
deriving DecidableEq

/-- A table or metric view used in a join (`models.JoinSource`). -/
structure JoinSource where
  identifier : String
  alias_ : String
deriving DecidableEq

/-- A pre-defined join specification (`models.JoinSpec`). -/
structure JoinSpec where
  id : String
  left : JoinSource
  right : JoinSource
  sql : List String
  comment : Option (List String)
deriving DecidableEq

/-- `JoinSpec.create`: the join condition becomes a one-element SQL list, the
comment is wrapped as a one-element list. -/
def JoinSpec.create (left_identifier left_alias right_identifier right_alias : String)
    (join_condition : String) (comment : Option String) (id : Option String)
    (genId : String) : JoinSpec :=
  { id := pyOr id genId
    left := { identifier := left_identifier, alias_ := left_alias }
    right := { identifier := right_identifier, alias_ := right_alias }
    sql := [join_condition]
    comment := pyWrap comment }

/-- Instructions, tools and examples for the whole space (`models.Instructions`). -/
structure Instructions where
  text_instructions : Option (List TextInstruction)
  example_question_sqls : Option (List ExampleQuestionSql)
  sql_functions : Option (List SqlFunction)
  join_specs : Option (List JoinSpec)
deriving DecidableEq

/-- Answer format enumeration: the `Literal["SQL"]` type of
`models.BenchmarkAnswer.format`. -/
inductive AnswerFormat where
  | SQL : AnswerFormat
deriving DecidableEq

/-- Ground-truth answer for a benchmark question (`models.BenchmarkAnswer`). -/
structure BenchmarkAnswer where
  format : AnswerFormat
  content : List String
deriving DecidableEq

/-- `BenchmarkAnswer.from_sql`: the SQL text is split at every newline. -/
def BenchmarkAnswer.from_sql (sql : String) : BenchmarkAnswer :=
  { format := .SQL, content := pySplit sql }

/-- A benchmark question (`models.BenchmarkQuestion`). -/
structure BenchmarkQuestion where
  id : String
  question : List String
  answer : List BenchmarkAnswer
deriving DecidableEq

/-- `BenchmarkQuestion.create`: one-element question, one SQL-format answer. -/
def BenchmarkQuestion.create (question sql_answer : String) (id : Option String)
    (genId : String) : BenchmarkQuestion :=
  { id := pyOr id genId
    question := [question]
    answer := [BenchmarkAnswer.from_sql sql_answer] }

/-- Benchmark question collection (`models.Benchmarks`). -/
structure Benchmarks where
  questions : List BenchmarkQuestion
deriving DecidableEq

/-- Top-level container for a serialized Space (`models.GenieSpaceExport`). -/
structure GenieSpaceExport where
  version : Int
  config : Option GenieSpaceConfig
  data_sources : Option DataSources
  instructions : Option Instructions
  benchmarks : Option Benchmarks
deriving DecidableEq

/-- Response envelope from the Spaces API (`models.SpaceResponse`). -/
structure SpaceResponse where
  space_id : String
  title : String
  description : Option String
  warehouse_id : Option String
  serialized_space : Option String
deriving DecidableEq

/-- One object member for a present optional field, nothing for an absent one:
the `exclude_none=True` omission rule of `model_dump`. -/
def optField (k : String) : Option Json → List (String × Json)
  | some v => [(k, v)]
  | none => []

/-- A list of strings as a JSON array of strings. -/
def strListJson (xs : List String) : Json :=
  .arr (xs.map Json.str)

/-- Serialization of `SampleQuestion` under `exclude_none=True`. -/
def SampleQuestion.to_dict (q : SampleQuestion) : Json :=
  .obj [("id", .str q.id), ("question", strListJson q.question)]

/-- Serialization of `GenieSpaceConfig` under `exclude_none=True`. -/
def GenieSpaceConfig.to_dict (c : GenieSpaceConfig) : Json :=
  .obj [("sample_questions", .arr (c.sample_questions.map SampleQuestion.to_dict))]

/-- Serialization of `ColumnConfig` under `exclude_none=True`: absent optional
fields are omitted, present boolean flags are written as booleans. -/
def ColumnConfig.to_dict (c : ColumnConfig) : Json :=
  .obj ([("column_name", .str c.column_name)]
    ++ optField "description" (c.description.map strListJson)
    ++ optField "synonyms" (c.synonyms.map strListJson)
    ++ optField "exclude" (c.exclude.map Json.bool)
    ++ optField "get_example_values" (c.get_example_values.map Json.bool)
    ++ optField "build_value_dictionary" (c.build_value_dictionary.map Json.bool))

/-- Serialization of `Table` under `exclude_none=True`. -/
def Table.to_dict (t : Table) : Json :=
  .obj ([("identifier", .str t.identifier)]
    ++ optField "description" (t.description.map strListJson)
    ++ optField "column_configs"
        (t.column_configs.map fun cs => .arr (cs.map ColumnConfig.to_dict)))

/-- Serialization of `MetricView` under `exclude_none=True`. -/
def MetricView.to_dict (m : MetricView) : Json :=
  .obj ([("identifier", .str m.identifier)]
    ++ optField "description" (m.description.map strListJson))

/-- Serialization of `DataSources` under `exclude_none=True`. -/
def DataSources.to_dict (d : DataSources) : Json :=
  .obj (optField "tables" (d.tables.map fun ts => .arr (ts.map Table.to_dict))
    ++ optField "metric_views"
        (d.metric_views.map fun ms => .arr (ms.map MetricView.to_dict)))

/-- Serialization of `TextInstruction` under `exclude_none=True`. -/
def TextInstruction.to_dict (t : TextInstruction) : Json :=
  .obj ([("id", .str t.id)] ++ optField "content" (t.content.map strListJson))

/-- Serialization of `Parameter` under `exclude_none=True`. -/
def Parameter.to_dict (p : Parameter) : Json :=
  .obj ([("name", .str p.name), ("type_hint", .str p.type_hint)]
    ++ optField "description" (p.description.map strListJson))

/-- Serialization of `ExampleQuestionSql` under `exclude_none=True`. -/
def ExampleQuestionSql.to_dict (e : ExampleQuestionSql) : Json :=
  .obj ([("id", .str e.id), ("question", strListJson e.question),
      ("sql", strListJson e.sql)]
    ++ optField "parameters" (e.parameters.map fun ps => .arr (ps.map Parameter.to_dict))
    ++ optField "usage_guidance" (e.usage_guidance.map strListJson))

/-- Serialization of `SqlFunction` under `exclude_none=True`. -/
def SqlFunction.to_dict (f : SqlFunction) : Json :=
  .obj [("id", .str f.id), ("identifier", .str f.identifier)]

/-- Serialization of `JoinSource` under `exclude_none=True`. -/
def JoinSource.to_dict (s : JoinSource) : Json :=
  .obj [("identifier", .str s.identifier), ("alias", .str s.alias_)]

/-- Serialization of `JoinSpec` under `exclude_none=True`. -/
def JoinSpec.to_dict (j : JoinSpec) : Json :=
  .obj ([("id", .str j.id), ("left", j.left.to_dict), ("right", j.right.to_dict),
      ("sql", strListJson j.sql)]
    ++ optField "comment" (j.comment.map strListJson))

/-- Serialization of `Instructions` under `exclude_none=True`. -/
def Instructions.to_dict (i : Instructions) : Json :=
  .obj (optField "text_instructions"
      (i.text_instructions.map fun ts => .arr (ts.map TextInstruction.to_dict))
    ++ optField "example_question_sqls"
      (i.example_question_sqls.map fun es => .arr (es.map ExampleQuestionSql.to_dict))
    ++ optField "sql_functions"
      (i.sql_functions.map fun fs => .arr (fs.map SqlFunction.to_dict))
    ++ optField "join_specs"
      (i.join_specs.map fun js => .arr (js.map JoinSpec.to_dict)))

/-- Serialization of `BenchmarkAnswer` under `exclude_none=True`: the format
enumeration is written as its literal string. -/
def BenchmarkAnswer.to_dict (a : BenchmarkAnswer) : Json :=
  .obj [("format", .str "SQL"), ("content", strListJson a.content)]

/-- Serialization of `BenchmarkQuestion` under `exclude_none=True`. -/
def BenchmarkQuestion.to_dict (q : BenchmarkQuestion) : Json :=
  .obj [("id", .str q.id), ("question", strListJson q.question),
    ("answer", .arr (q.answer.map BenchmarkAnswer.to_dict))]

/-- Serialization of `Benchmarks` under `exclude_none=True`. -/
def Benchmarks.to_dict (b : Benchmarks) : Json :=
  .obj [("questions", .arr (b.questions.map BenchmarkQuestion.to_dict))]

/-- `GenieSpaceExport.to_dict`: `model_dump(exclude_none=True)` — absent
optional sections are omitted entirely, nothing is written as `null`. -/
def GenieSpaceExport.to_dict (e : GenieSpaceExport) : Json :=
  .obj ([("version", .num e.version)]
    ++ optField "config" (e.config.map GenieSpaceConfig.to_dict)
    ++ optField "data_sources" (e.data_sources.map DataSources.to_dict)
    ++ optField "instructions" (e.instructions.map Instructions.to_dict)
    ++ optField "benchmarks" (e.benchmarks.map Benchmarks.to_dict))

/-- A required string field: missing keys, `null` and other shapes are
validation errors. -/
def reqStr (kvs : List (String × Json)) (k : String) : Except String String :=
  match lookupKv kvs k with
  | some (.str s) => .ok s
  | some _ => .error (k ++ ": expected a string")
  | none => .error (k ++ ": field required")

/-- A JSON array of strings, any other shape is a validation error. -/
def strListOf : List Json → Except String (List String)
  | [] => .ok []
  | .str s :: rest => (strListOf rest).map (s :: ·)
  | _ => .error "expected a string element"

/-- A value of a `list[str]` field. -/
def asStrList (j : Json) : Except String (List String) :=
  match j with
  | .arr xs => strListOf xs
  | _ => .error "expected an array of strings"

/-- A required `list[str]` field. -/
def reqStrList (kvs : List (String × Json)) (k : String) : Except String (List String) :=
  match lookupKv kvs k with
  | some j => asStrList j
  | none => .error (k ++ ": field required")

/-- An optional `list[str] | None` field: a missing key or an explicit `null`
both validate to the absent value. -/
def optStrList (kvs : List (String × Json)) (k : String) :
    Except String (Option (List String)) :=
  match lookupKv kvs k with
  | some .null => .ok none
  | some j => (asStrList j).map some
  | none => .ok none

/-- An optional `bool | None` flag field. -/
def optBool (kvs : List (String × Json)) (k : String) : Except String (Option Bool) :=
  match lookupKv kvs k with
  | some (.bool b) => .ok (some b)
  | some .null => .ok none
  | some _ => .error (k ++ ": expected a boolean")
  | none => .ok none

/-- Element-wise validation of a JSON array with a record validator. -/
def jsonListM (f : Json → Except String α) : List Json → Except String (List α)
  | [] => .ok []
  | j :: js => do
    let a ← f j
    let as ← jsonListM f js
    .ok (a :: as)

/-- A required field holding a list of records. -/
def reqListOf (f : Json → Except String α) (kvs : List (String × Json)) (k : String) :
    Except String (List α) :=
  match lookupKv kvs k with
  | some (.arr xs) => jsonListM f xs
  | some _ => .error (k ++ ": expected an array")
  | none => .error (k ++ ": field required")

/-- A `list[T] = Field(default_factory=list)` field: a missing key validates to
the empty list. -/
def defListOf (f : Json → Except String α) (kvs : List (String × Json)) (k : String) :
    Except String (List α) :=
  match lookupKv kvs k with
  | some (.arr xs) => jsonListM f xs
  | some _ => .error (k ++ ": expected an array")
  | none => .ok []

/-- An optional `list[T] | None` field: missing key or explicit `null`
validate to the absent value. -/
def optListOf (f : Json → Except String α) (kvs : List (String × Json)) (k : String) :
    Except String (Option (List α)) :=
  match lookupKv kvs k with
  | some (.arr xs) => (jsonListM f xs).map some
  | some .null => .ok none
  | some _ => .error (k ++ ": expected an array")
  | none => .ok none

/-- An optional nested-record field: missing key or explicit `null` validate
to the absent value. -/
def optRecordOf (f : Json → Except String α) (kvs : List (String × Json)) (k : String) :
    Except String (Option α) :=
  match lookupKv kvs k with
  | some j => if j.isNull then .ok none else (f j).map some
  | none => .ok none

/-- Validation of `SampleQuestion` objects.  The implementation fills a
missing `id` from the opaque UUID generator (`default_factory=generate_id`),
an external effect; the embedding treats `id` as required, which coincides
with the implementation on every document whose records carry ids — in
particular on everything the serializer emits. -/
def SampleQuestion.from_dict (j : Json) : Except String SampleQuestion :=
  match j with
  | .obj kvs => do
    let id ← reqStr kvs "id"
    let question ← reqStrList kvs "question"
    .ok { id := id, question := question }
  | _ => .error "SampleQuestion: expected an object"

/-- Validation of `GenieSpaceConfig` objects. -/
def GenieSpaceConfig.from_dict (j : Json) : Except String GenieSpaceConfig :=
  match j with
  | .obj kvs => do
    let qs ← defListOf SampleQuestion.from_dict kvs "sample_questions"
    .ok { sample_questions := qs }
  | _ => .error "GenieSpaceConfig: expected an object"

/-- Validation of `ColumnConfig` objects. -/
def ColumnConfig.from_dict (j : Json) : Except String ColumnConfig :=
  match j with
  | .obj kvs => do
    let name ← reqStr kvs "column_name"
    let description ← optStrList kvs "description"
    let synonyms ← optStrList kvs "synonyms"
    let exclude ← optBool kvs "exclude"
    let gev ← optBool kvs "get_example_values"
    let bvd ← optBool kvs "build_value_dictionary"
    .ok { column_name := name, description := description, synonyms := synonyms,
          exclude := exclude, get_example_values := gev, build_value_dictionary := bvd }
  | _ => .error "ColumnConfig: expected an object"

/-- Validation of `Table` objects. -/
def Table.from_dict (j : Json) : Except String Table :=
  match j with
  | .obj kvs => do
    let identifier ← reqStr kvs "identifier"
    let description ← optStrList kvs "description"
    let ccs ← optListOf ColumnConfig.from_dict kvs "column_configs"
    .ok { identifier := identifier, description := description, column_configs := ccs }
  | _ => .error "Table: expected an object"

/-- Validation of `MetricView` objects. -/
def MetricView.from_dict (j : Json) : Except String MetricView :=
  match j with
  | .obj kvs => do
    let identifier ← reqStr kvs "identifier"
    let description ← optStrList kvs "description"
    .ok { identifier := identifier, description := description }
  | _ => .error "MetricView: expected an object"

/-- Validation of `DataSources` objects. -/
def DataSources.from_dict (j : Json) : Except String DataSources :=
  match j with
  | .obj kvs => do
    let tables ← optListOf Table.from_dict kvs "tables"
    let mvs ← optListOf MetricView.from_dict kvs "metric_views"
    .ok { tables := tables, metric_views := mvs }
  | _ => .error "DataSources: expected an object"

/-- Validation of `TextInstruction` objects (see `SampleQuestion.from_dict`
about the `id` field). -/
def TextInstruction.from_dict (j : Json) : Except String TextInstruction :=
  match j with
  | .obj kvs => do
    let id ← reqStr kvs "id"
    let content ← optStrList kvs "content"
    .ok { id := id, content := content }
  | _ => .error "TextInstruction: expected an object"

/-- Validation of `Parameter` objects. -/
def Parameter.from_dict (j : Json) : Except String Parameter :=
  match j with
  | .obj kvs => do
    let name ← reqStr kvs "name"
    let th ← reqStr kvs "type_hint"
    let description ← optStrList kvs "description"
    .ok { name := name, type_hint := th, description := description }
  | _ => .error "Parameter: expected an object"

/-- Validation of `ExampleQuestionSql` objects. -/
def ExampleQuestionSql.from_dict (j : Json) : Except String ExampleQuestionSql :=
  match j with
  | .obj kvs => do
    let id ← reqStr kvs "id"
    let question ← reqStrList kvs "question"
    let sql ← reqStrList kvs "sql"
    let parameters ← optListOf Parameter.from_dict kvs "parameters"
    let ug ← optStrList kvs "usage_guidance"
    .ok { id := id, question := question, sql := sql, parameters := parameters,
          usage_guidance := ug }
  | _ => .error "ExampleQuestionSql: expected an object"

/-- Validation of `SqlFunction` objects. -/
def SqlFunction.from_dict (j : Json) : Except String SqlFunction :=
  match j with
  | .obj kvs => do
    let id ← reqStr kvs "id"
    let identifier ← reqStr kvs "identifier"
    .ok { id := id, identifier := identifier }
  | _ => .error "SqlFunction: expected an object"

/-- Validation of `JoinSource` objects. -/
def JoinSource.from_dict (j : Json) : Except String JoinSource :=
  match j with
  | .obj kvs => do
    let identifier ← reqStr kvs "identifier"
    let a ← reqStr kvs "alias"
    .ok { identifier := identifier, alias_ := a }
  | _ => .error "JoinSource: expected an object"

/-- Validation of `JoinSpec` objects. -/
def JoinSpec.from_dict (j : Json) : Except String JoinSpec :=
  match j with
  | .obj kvs => do
    let id ← reqStr kvs "id"
    let left ← match lookupKv kvs "left" with
      | some lj => JoinSource.from_dict lj
      | none => .error "left: field required"
    let right ← match lookupKv kvs "right" with
      | some rj => JoinSource.from_dict rj
      | none => .error "right: field required"
    let sql ← reqStrList kvs "sql"
    let comment ← optStrList kvs "comment"
    .ok { id := id, left := left, right := right, sql := sql, comment := comment }
  | _ => .error "JoinSpec: expected an object"

/-- Validation of `Instructions` objects. -/
def Instructions.from_dict (j : Json) : Except String Instructions :=
  match j with
  | .obj kvs => do
    let tis ← optListOf TextInstruction.from_dict kvs "text_instructions"
    let eqs ← optListOf ExampleQuestionSql.from_dict kvs "example_question_sqls"
    let sfs ← optListOf SqlFunction.from_dict kvs "sql_functions"
    let jss ← optListOf JoinSpec.from_dict kvs "join_specs"
    .ok { text_instructions := tis, example_question_sqls := eqs,
          sql_functions := sfs, join_specs := jss }
  | _ => .error "Instructions: expected an object"

/-- Validation of `BenchmarkAnswer` objects: the `format` member must be the
literal `"SQL"` when present, and defaults to it when missing. -/
def BenchmarkAnswer.from_dict (j : Json) : Except String BenchmarkAnswer :=
  match j with
  | .obj kvs => do
    let format ← match lookupKv kvs "format" with
      | some (.str "SQL") => Except.ok AnswerFormat.SQL
      | some _ => Except.error "format: input should be SQL"
      | none => Except.ok AnswerFormat.SQL
    let content ← reqStrList kvs "content"
    .ok { format := format, content := content }
  | _ => .error "BenchmarkAnswer: expected an object"

/-- Validation of `BenchmarkQuestion` objects. -/
def BenchmarkQuestion.from_dict (j : Json) : Except String BenchmarkQuestion :=
  match j with
  | .obj kvs => do
    let id ← reqStr kvs "id"
    let question ← reqStrList kvs "question"
    let answer ← reqListOf BenchmarkAnswer.from_dict kvs "answer"
    .ok { id := id, question := question, answer := answer }
  | _ => .error "BenchmarkQuestion: expected an object"

/-- Validation of `Benchmarks` objects. -/
def Benchmarks.from_dict (j : Json) : Except String Benchmarks :=
  match j with
  | .obj kvs => do
    let questions ← defListOf BenchmarkQuestion.from_dict kvs "questions"
    .ok { questions := questions }
  | _ => .error "Benchmarks: expected an object"

/-- `GenieSpaceExport.from_dict` (`model_validate`): the version defaults to 1
when missing, the optional sections default to absent, unknown keys are
ignored. -/
def GenieSpaceExport.from_dict (j : Json) : Except String GenieSpaceExport :=
  match j with
  | .obj kvs => do
    let version ← match lookupKv kvs "version" with
      | some (.num n) => Except.ok n
      | some _ => Except.error "version: expected an integer"
      | none => Except.ok 1
    let config ← optRecordOf GenieSpaceConfig.from_dict kvs "config"
    let ds ← optRecordOf DataSources.from_dict kvs "data_sources"
    let ins ← optRecordOf Instructions.from_dict kvs "instructions"
    let bms ← optRecordOf Benchmarks.from_dict kvs "benchmarks"
    .ok { version := version, config := config, data_sources := ds,
          instructions := ins, benchmarks := bms }
  | _ => .error "GenieSpaceExport: expected an object"

/-- Escaping of a single character inside a JSON string literal. -/
def escChar (c : Char) : List Char :=
  if c = '"' then ['\\', '"']
  else if c = '\\' then ['\\', '\\']
  else if c = '\n' then ['\\', 'n']
  else if c = '\t' then ['\\', 't']
  else if c = '\r' then ['\\', 'r']
  else [c]

/-- Escaping of a whole string for a JSON string literal. -/
def escString (s : String) : List Char :=
  (s.data.map escChar).flatten

mutual

/-- Compact JSON text for a value.  Together with `Json.render` this models
the external JSON text encoder; no claim depends on its whitespace, so the
2-space indentation of `model_dump_json(indent=2)` is not reproduced. -/
def Json.renderChars : Json → List Char
  | .null => "null".data
  | .bool b => (if b then "true" else "false").data
  | .num n => (toString n).data
  | .str s => '"' :: (escString s ++ ['"'])
  | .arr xs => '[' :: (Json.renderArr xs ++ [']'])
  | .obj kvs => '{' :: (Json.renderObj kvs ++ ['}'])

/-- Comma-separated rendering of array elements. -/
def Json.renderArr : List Json → List Char
  | [] => []
  | [j] => j.renderChars
  | j :: js => j.renderChars ++ ',' :: Json.renderArr js

/-- Comma-separated rendering of object members. -/
def Json.renderObj : List (String × Json) → List Char
  | [] => []
  | [(k, v)] => '"' :: (escString k ++ '"' :: ':' :: v.renderChars)
  | (k, v) :: kvs =>
    '"' :: (escString k ++ '"' :: ':' :: (v.renderChars ++ ',' :: Json.renderObj kvs))

end

/-- JSON text for a value (models the external JSON text encoder). -/
def Json.render (j : Json) : String :=
  String.mk j.renderChars

/-- Drop leading JSON whitespace. -/
def skipWs : List Char → List Char
  | [] => []
  | c :: cs => if c = ' ' ∨ c = '\n' ∨ c = '\t' ∨ c = '\r' then skipWs cs else c :: cs

/-- Body of a JSON string literal after the opening quote: collect characters
up to the closing quote, decoding the basic escapes. -/
def parseStrAux : List Char → List Char → Option (List Char × List Char)
  | acc, '"' :: cs => some (acc.reverse, cs)
  | acc, '\\' :: c :: cs =>
    if c = '"' ∨ c = '\\' ∨ c = '/' then parseStrAux (c :: acc) cs
    else if c = 'n' then parseStrAux ('\n' :: acc) cs
    else if c = 't' then parseStrAux ('\t' :: acc) cs
    else if c = 'r' then parseStrAux ('\r' :: acc) cs
    else if c = 'b' then parseStrAux (Char.ofNat 8 :: acc) cs
    else if c = 'f' then parseStrAux (Char.ofNat 12 :: acc) cs
    else none
  | acc, c :: cs => if c = '\\' then none else parseStrAux (c :: acc) cs
  | _, [] => none

/-- Consume a run of decimal digits. -/
def parseDigits (acc : Nat) : List Char → Nat × List Char
  | c :: cs =>
    if c.isDigit then parseDigits (acc * 10 + (c.toNat - 48)) cs else (acc, c :: cs)
  | [] => (acc, [])

mutual

/-- Fuelled recursive-descent JSON value parser.  Together with `Json.parse`
this models the external JSON text decoder (`json.loads`, `response.json()`,
pydantic's JSON codec): it returns the parsed value and the remaining input,
or nothing for malformed text. -/
def parseVal : Nat → List Char → Option (Json × List Char)
  | 0, _ => none
  | fuel + 1, cs =>
    match skipWs cs with
    | 'n' :: 'u' :: 'l' :: 'l' :: rest => some (.null, rest)
    | 't' :: 'r' :: 'u' :: 'e' :: rest => some (.bool true, rest)
    | 'f' :: 'a' :: 'l' :: 's' :: 'e' :: rest => some (.bool false, rest)
    | '"' :: rest => (parseStrAux [] rest).map fun p => (.str (String.mk p.1), p.2)
    | '[' :: rest =>
      (match skipWs rest with
       | ']' :: r2 => some (.arr [], r2)
       | cs2 => (parseElems fuel cs2).map fun p => (.arr p.1, p.2))
    | '{' :: rest =>
      (match skipWs rest with
       | '}' :: r2 => some (.obj [], r2)
       | cs2 => (parseMembers fuel cs2).map fun p => (.obj p.1, p.2))
    | '-' :: c :: rest =>
      if c.isDigit then
        some (.num (-((parseDigits 0 (c :: rest)).1 : Int)), (parseDigits 0 (c :: rest)).2)
      else none
    | c :: rest =>
      if c.isDigit then
        some (.num ((parseDigits 0 (c :: rest)).1 : Int), (parseDigits 0 (c :: rest)).2)
      else none
    | [] => none

/-- One or more comma-separated array elements, ending at `]`. -/
def parseElems : Nat → List Char → Option (List Json × List Char)
  | 0, _ => none
  | fuel + 1, cs =>
    match parseVal fuel cs with
    | some (j, r) =>
      (match skipWs r with
       | ',' :: r2 => (parseElems fuel r2).map fun p => (j :: p.1, p.2)
       | ']' :: r2 => some ([j], r2)
       | _ => none)
    | none => none

/-- One or more comma-separated object members, ending at the closing brace. -/
def parseMembers : Nat → List Char → Option (List (String × Json) × List Char)
  | 0, _ => none
  | fuel + 1, cs =>
    match skipWs cs with
    | '"' :: rest =>
      (match parseStrAux [] rest with
       | some (kChars, r1) =>
         (match skipWs r1 with
          | ':' :: r2 =>
            (match parseVal fuel r2 with
             | some (v, r3) =>
               (match skipWs r3 with
                | ',' :: r4 =>
                  (parseMembers fuel r4).map fun p => ((String.mk kChars, v) :: p.1, p.2)
                | '}' :: r4 => some ([(String.mk kChars, v)], r4)
                | _ => none)
             | none => none)
          | _ => none)
       | none => none)
    | _ => none

end

/-- JSON text decoding (models the external JSON text decoder): parse one
value and require only whitespace after it. -/
def Json.parse (s : String) : Option Json :=
  match parseVal (2 * s.length + 2) s.data with
  | some (j, rest) => if skipWs rest = [] then some j else none
  | none => none

example : Json.parse "\x7b\"version\": 1\x7d"
    = some (.obj [("version", .num 1)]) := rfl
example : Json.parse "[]" = some (.arr []) := rfl
example : Json.parse "7" = some (.num 7) := rfl
example : Json.parse "x" = none := rfl
example : Json.parse "" = none := rfl

/-- `GenieSpaceExport.to_json`: serialize to JSON text, excluding `None`
values (the 2-space indentation is not reproduced, see `Json.renderChars`). -/
def GenieSpaceExport.to_json (e : GenieSpaceExport) : String :=
  e.to_dict.render

/-- `GenieSpaceExport.from_json` (`model_validate_json`): decode the JSON
text, then validate; malformed text or an invalid document is a validation
error (a raised pydantic `ValidationError` in the implementation). -/
def GenieSpaceExport.from_json (s : String) : Except String GenieSpaceExport :=
  match Json.parse s with
  | some j => GenieSpaceExport.from_dict j
  | none => .error "invalid JSON"

/-- `SpaceResponse.get_export`: parse `serialized_space` on demand; Python
truthiness makes both an absent field and the empty string yield `None`.
An `Except.error` result models a raised pydantic `ValidationError`. -/
def SpaceResponse.get_export (r : SpaceResponse) :
    Except String (Option GenieSpaceExport) :=
  match r.serialized_space with
  | some s => if s = "" then .ok none else (GenieSpaceExport.from_json s).map some
  | none => .ok none

/-- Exception class of a raised client error (`client.GenieSpacesError` and
its three subclasses). -/
inductive ErrorKind where
  | genie : ErrorKind
  | authentication : ErrorKind
  | notFound : ErrorKind
  | validation : ErrorKind
deriving DecidableEq

/-- A raised `GenieSpacesError`: the message passed to `Exception`, plus the
`status_code` and `response` attributes. -/
structure GenieError where
  kind : ErrorKind
  message : String
  status_code : Option Nat
  response : Option Json

/-- An exception escaping a client call: either a pydantic validation error, a
Python `AttributeError` (attribute access on a value that lacks it), or one of
the client's own `GenieSpacesError` classes. -/
inductive RaisedError where
  | pydantic (message : String) : RaisedError
  | attribute (message : String) : RaisedError
  | genie (e : GenieError) : RaisedError

/-- An HTTP response as seen by `_handle_response`: status code and body
text. -/
structure HttpResponse where
  status : Nat
  text : String

/-- The `data` value of `_handle_response`: the JSON-decoded body, or the
raw-text placeholder object when the body is not JSON. -/
def respData (r : HttpResponse) : Json :=
  match Json.parse r.text with
  | some j => j
  | none => .obj [("raw", .str r.text)]

/-- Python `data.get("message", default)` followed by string interpolation:
key lookup on an object (a non-string value is interpolated via its rendering,
a missing key gives the default); on a non-object value the attribute access
itself raises `AttributeError`. -/
def jsonGetMessage (data : Json) (default : String) : Except RaisedError String :=
  match data with
  | .obj kvs =>
    match lookupKv kvs "message" with
    | some (.str s) => .ok s
    | some j => .ok j.render
    | none => .ok default
  | _ => .error (.attribute "get: the parsed body is not an object")

/-- `GenieSpacesClient._handle_response`: decode the body (placeholder on
decode failure), then dispatch on the status code — 401, 404, 400, any other
status of 400 and above raise typed errors, everything below 400 returns the
decoded body. -/
def handle_response (r : HttpResponse) : Except RaisedError Json :=
  if r.status = 401 then
    .error (.genie
      { kind := .authentication
        message := "Authentication failed. Check your token and permissions."
        status_code := some r.status
        response := some (respData r) })
  else if r.status = 404 then
    match jsonGetMessage (respData r) "Unknown" with
    | .ok m =>
      .error (.genie
        { kind := .notFound
          message := "Resource not found: " ++ m
          status_code := some r.status
          response := some (respData r) })
    | .error e => .error e
  else if r.status = 400 then
    match jsonGetMessage (respData r) "Unknown" with
    | .ok m =>
      .error (.genie
        { kind := .validation
          message := "Validation error: " ++ m
          status_code := some r.status
          response := some (respData r) })
    | .error e => .error e
  else if 400 ≤ r.status then
    match jsonGetMessage (respData r) r.text with
    | .ok m =>
      .error (.genie
        { kind := .genie
          message := "API error: " ++ m
          status_code := some r.status
          response := some (respData r) })
    | .error e => .error e
  else .ok (respData r)

/-- The `serialized_space` argument of `import_space` / `update_space`: a JSON
text string or a `GenieSpaceExport` document. -/
inductive SerializedArg where
  | text (s : String) : SerializedArg
  | doc (e : GenieSpaceExport) : SerializedArg

/-- The JSON text actually sent for a `serialized_space` argument: a document
argument is serialized via `to_json` first, a string passes through. -/
def serializedText : SerializedArg → String
  | .text s => s
  | .doc e => e.to_json

/-- One payload entry guarded by Python truthiness (`if value:`): present
only when the optional string is set and non-empty. -/
def pyOptEntry (k : String) : Option String → List (String × Json)
  | some s => if s = "" then [] else [(k, .str s)]
  | none => []

/-- The PATCH body assembled by `GenieSpacesClient.update_space`
(client.py lines 374-389): `serialized_space` is included whenever the
argument is not `None` (even when it is the empty string), the four plain
string fields only when truthy. -/
def update_space_payload (serialized_space : Option SerializedArg)
    (warehouse_id parent_path title description : Option String) :
    List (String × Json) :=
  (match serialized_space with
   | some a => [("serialized_space", Json.str (serializedText a))]
   | none => [])
  ++ pyOptEntry "warehouse_id" warehouse_id
  ++ pyOptEntry "parent_path" parent_path
  ++ pyOptEntry "title" title
  ++ pyOptEntry "description" description

/-- The argument tuple `clone_space` forwards to `import_space`. -/
structure ImportArgs where
  warehouse_id : String
  parent_path : String
  serialized_space : SerializedArg
  title : Option String
  description : Option String

/-- The POST body assembled by `GenieSpacesClient.import_space`: the three
required fields always, title and description only when truthy. -/
def import_space_payload (a : ImportArgs) : List (String × Json) :=
  [("warehouse_id", .str a.warehouse_id), ("parent_path", .str a.parent_path),
    ("serialized_space", .str (serializedText a.serialized_space))]
  ++ pyOptEntry "title" a.title
  ++ pyOptEntry "description" a.description

/-- `GenieSpacesClient.clone_space` after the source export has been fetched:
decode the embedded document (raising on an absent/empty one), then build the
`import_space` arguments — the title defaults to the source title with the
literal `" (Copy)"` suffix, the description defaults to the source's.  An
`Except.error` result means `import_space` is never invoked. -/
def clone_space (source : SpaceResponse) (warehouse_id parent_path : String)
    (title description : Option String) : Except RaisedError ImportArgs :=
  match source.get_export with
  | .error m => .error (.pydantic m)
  | .ok none =>
    .error (.genie
      { kind := .genie
        message := "Source space export returned empty serialized_space"
        status_code := none
        response := none })
  | .ok (some exported) =>
    .ok
      { warehouse_id := warehouse_id
        parent_path := parent_path
        serialized_space := .doc exported
        title := some (pyOr title (source.title ++ " (Copy)"))
        description := pyOrOpt description source.description }

/-- True when one of the three boolean flags of a `ColumnConfig` is
explicitly present with the value `False` (the case the round-trip contract
excludes). -/
def ColumnConfig.hasFalseFlag (c : ColumnConfig) : Bool :=
  c.exclude == some false || c.get_example_values == some false
    || c.build_value_dictionary == some false

/-- True when some `ColumnConfig` inside the export carries an explicit
`False` flag. -/
def GenieSpaceExport.hasFalseFlag (e : GenieSpaceExport) : Bool :=
  match e.data_sources with
  | some ds =>
    match ds.tables with
    | some ts =>
      ts.any fun t =>
        match t.column_configs with
        | some cs => cs.any ColumnConfig.hasFalseFlag
        | none => false
    | none => false
  | none => false

/-! Helper lemmas about lookups, serializer building blocks and the
string-splitting model. -/

@[simp]
theorem lookupKv_nil (k : String) : lookupKv [] k = none := rfl

@[simp]
theorem lookupKv_cons (k' : String) (v : Json) (rest : List (String × Json))
    (k : String) :
    lookupKv ((k', v) :: rest) k = if k' = k then some v else lookupKv rest k := rfl

@[simp]
theorem lookupKv_append (A B : List (String × Json)) (k : String) :
    lookupKv (A ++ B) k =
      match lookupKv A k with
      | some v => some v
      | none => lookupKv B k := by
  induction A with
  | nil => simp
  | cons kv rest ih =>
    obtain ⟨k', v⟩ := kv
    by_cases h : k' = k <;> simp [h, ih]

@[simp]
theorem lookupKv_optField_self (k : String) (v : Option Json) :
    lookupKv (optField k v) k = v := by
  cases v <;> simp [optField]

theorem lookupKv_optField_ne (k k' : String) (h : ¬ k = k') (v : Option Json) :
    lookupKv (optField k v) k' = none := by
  cases v <;> simp [optField, h]

example : lookupKv [("a", .num 1), ("b", .num 2)] "b" = some (.num 2) := by
  simp

theorem pyJoin_pySplit (s : String) : pyJoin (pySplit s) = s := by
  unfold pyJoin pySplit
  rw [List.map_map]
  have h : (String.data ∘ String.mk) = fun l : List Char => l := rfl
  rw [h, List.map_id', List.intercalate_splitOn]

theorem pyJoin_singleton (s : String) : pyJoin [s] = s := by
  simp [pyJoin, List.intercalate]

@[simp]
theorem strListOf_map (xs : List String) : strListOf (xs.map Json.str) = .ok xs := by
  induction xs with
  | nil => rfl
  | cons a as ih => simp [strListOf, ih, Except.map]

@[simp]
theorem asStrList_strListJson (xs : List String) :
    asStrList (strListJson xs) = .ok xs := by
  simp [asStrList, strListJson]

theorem jsonListM_map {α : Type} (f : Json → Except String α) (g : α → Json)
    (h : ∀ x, f (g x) = .ok x) (xs : List α) :
    jsonListM f (xs.map g) = .ok xs := by
  induction xs with
  | nil => rfl
  | cons a as ih =>
    rw [List.map_cons, jsonListM, h a, ih]
    rfl

theorem sampleQuestion_roundtrip (q : SampleQuestion) :
    SampleQuestion.from_dict q.to_dict = .ok q := by
  obtain ⟨i, qs⟩ := q
  simp [SampleQuestion.to_dict, SampleQuestion.from_dict, reqStr, reqStrList]
  rfl

theorem columnConfig_roundtrip (c : ColumnConfig) :
    ColumnConfig.from_dict c.to_dict = .ok c := by
  obtain ⟨n, d, syn, ex, gev, bvd⟩ := c
  cases d <;> cases syn <;> cases ex <;> cases gev <;> cases bvd <;>
    simp [ColumnConfig.to_dict, ColumnConfig.from_dict, reqStr, optStrList,
      optBool, optField, strListJson, asStrList, Except.map] <;> rfl

theorem genieSpaceConfig_roundtrip (c : GenieSpaceConfig) :
    GenieSpaceConfig.from_dict c.to_dict = .ok c := by
  obtain ⟨qs⟩ := c
  simp [GenieSpaceConfig.to_dict, GenieSpaceConfig.from_dict, defListOf,
    jsonListM_map SampleQuestion.from_dict SampleQuestion.to_dict sampleQuestion_roundtrip]
  rfl

theorem table_roundtrip (t : Table) : Table.from_dict t.to_dict = .ok t := by
  obtain ⟨i, d, cc⟩ := t
  cases d <;> cases cc <;>
    simp [Table.to_dict, Table.from_dict, reqStr, optStrList, optListOf,
      optField, strListJson, asStrList, Except.map,
      jsonListM_map ColumnConfig.from_dict ColumnConfig.to_dict columnConfig_roundtrip] <;>
    rfl

theorem metricView_roundtrip (m : MetricView) :
    MetricView.from_dict m.to_dict = .ok m := by
  obtain ⟨i, d⟩ := m
  cases d <;>
    simp [MetricView.to_dict, MetricView.from_dict, reqStr, optStrList,
      optField, strListJson, asStrList, Except.map] <;> rfl

theorem dataSources_roundtrip (d : DataSources) :
    DataSources.from_dict d.to_dict = .ok d := by
  obtain ⟨ts, ms⟩ := d
  cases ts <;> cases ms <;>
    simp [DataSources.to_dict, DataSources.from_dict, optListOf, optField,
      Except.map,
      jsonListM_map Table.from_dict Table.to_dict table_roundtrip,
      jsonListM_map MetricView.from_dict MetricView.to_dict metricView_roundtrip] <;>
    rfl

theorem textInstruction_roundtrip (t : TextInstruction) :
    TextInstruction.from_dict t.to_dict = .ok t := by
  obtain ⟨i, c⟩ := t
  cases c <;>
    simp [TextInstruction.to_dict, TextInstruction.from_dict, reqStr,
      optStrList, optField, strListJson, asStrList, Except.map] <;> rfl

theorem parameter_roundtrip (p : Parameter) :
    Parameter.from_dict p.to_dict = .ok p := by
  obtain ⟨n, th, d⟩ := p
  cases d <;>
    simp [Parameter.to_dict, Parameter.from_dict, reqStr, optStrList,
      optField, strListJson, asStrList, Except.map] <;> rfl

theorem exampleQuestionSql_roundtrip (e : ExampleQuestionSql) :
    ExampleQuestionSql.from_dict e.to_dict = .ok e := by
  obtain ⟨i, q, s, ps, ug⟩ := e
  cases ps <;> cases ug <;>
    simp [ExampleQuestionSql.to_dict, ExampleQuestionSql.from_dict, reqStr,
      reqStrList, optStrList, optListOf, optField, strListJson, asStrList,
      Except.map,
      jsonListM_map Parameter.from_dict Parameter.to_dict parameter_roundtrip] <;>
    rfl

theorem sqlFunction_roundtrip (f : SqlFunction) :
    SqlFunction.from_dict f.to_dict = .ok f := by
  obtain ⟨i, idf⟩ := f
  simp [SqlFunction.to_dict, SqlFunction.from_dict, reqStr]
  rfl

theorem joinSource_roundtrip (s : JoinSource) :
    JoinSource.from_dict s.to_dict = .ok s := by
  obtain ⟨i, a⟩ := s
  simp [JoinSource.to_dict, JoinSource.from_dict, reqStr]
  rfl

theorem joinSpec_roundtrip (j : JoinSpec) : JoinSpec.from_dict j.to_dict = .ok j := by
  obtain ⟨i, l, r, s, c⟩ := j
  cases c <;>
    simp [JoinSpec.to_dict, JoinSpec.from_dict, reqStr, reqStrList, optStrList,
      optField, strListJson, asStrList, Except.map, joinSource_roundtrip] <;>
    rfl

theorem instructions_roundtrip (i : Instructions) :
    Instructions.from_dict i.to_dict = .ok i := by
  obtain ⟨ts, es, fs, js⟩ := i
  cases ts <;> cases es <;> cases fs <;> cases js <;>
    simp [Instructions.to_dict, Instructions.from_dict, optListOf, optField,
      Except.map,
      jsonListM_map TextInstruction.from_dict TextInstruction.to_dict
        textInstruction_roundtrip,
      jsonListM_map ExampleQuestionSql.from_dict ExampleQuestionSql.to_dict
        exampleQuestionSql_roundtrip,
      jsonListM_map SqlFunction.from_dict SqlFunction.to_dict sqlFunction_roundtrip,
      jsonListM_map JoinSpec.from_dict JoinSpec.to_dict joinSpec_roundtrip] <;>
    rfl

theorem benchmarkAnswer_roundtrip (a : BenchmarkAnswer) :
    BenchmarkAnswer.from_dict a.to_dict = .ok a := by
  obtain ⟨f, c⟩ := a
  cases f
  simp [BenchmarkAnswer.to_dict, BenchmarkAnswer.from_dict, reqStrList]
  rfl

theorem benchmarkQuestion_roundtrip (q : BenchmarkQuestion) :
    BenchmarkQuestion.from_dict q.to_dict = .ok q := by
  obtain ⟨i, qs, a⟩ := q
  simp [BenchmarkQuestion.to_dict, BenchmarkQuestion.from_dict, reqStr,
    reqStrList, reqListOf,
    jsonListM_map BenchmarkAnswer.from_dict BenchmarkAnswer.to_dict
      benchmarkAnswer_roundtrip]
  rfl

theorem benchmarks_roundtrip (b : Benchmarks) :
    Benchmarks.from_dict b.to_dict = .ok b := by
  obtain ⟨qs⟩ := b
  simp [Benchmarks.to_dict, Benchmarks.from_dict, defListOf,
    jsonListM_map BenchmarkQuestion.from_dict BenchmarkQuestion.to_dict
      benchmarkQuestion_roundtrip]
  rfl

theorem genieSpaceConfig_to_dict_not_null (x : GenieSpaceConfig) :
    x.to_dict.isNull = false := rfl

theorem dataSources_to_dict_not_null (x : DataSources) :
    x.to_dict.isNull = false := rfl

theorem instructions_to_dict_not_null (x : Instructions) :
    x.to_dict.isNull = false := rfl

theorem benchmarks_to_dict_not_null (x : Benchmarks) :
    x.to_dict.isNull = false := rfl

theorem genieSpaceExport_roundtrip (e : GenieSpaceExport) :
    GenieSpaceExport.from_dict e.to_dict = .ok e := by
  obtain ⟨v, c, ds, ins, bms⟩ := e
  cases c <;> cases ds <;> cases ins <;> cases bms <;>
    simp [GenieSpaceExport.to_dict, GenieSpaceExport.from_dict, optField,
      optRecordOf, Except.map, genieSpaceConfig_to_dict_not_null,
      dataSources_to_dict_not_null, instructions_to_dict_not_null,
      benchmarks_to_dict_not_null, genieSpaceConfig_roundtrip,
      dataSources_roundtrip, instructions_roundtrip, benchmarks_roundtrip] <;>
    rfl

@[simp]
theorem hasNull_null : Json.null.hasNull = true := rfl

@[simp]
theorem hasNull_bool (b : Bool) : (Json.bool b).hasNull = false := rfl

@[simp]
theorem hasNull_num (n : Int) : (Json.num n).hasNull = false := rfl

@[simp]
theorem hasNull_str (s : String) : (Json.str s).hasNull = false := rfl

@[simp]
theorem hasNull_arr (xs : List Json) : (Json.arr xs).hasNull = Json.hasNullArr xs := rfl

@[simp]
theorem hasNull_obj (kvs : List (String × Json)) :
    (Json.obj kvs).hasNull = Json.hasNullObj kvs := rfl

@[simp]
theorem hasNullArr_nil : Json.hasNullArr [] = false := rfl

@[simp]
theorem hasNullArr_cons (j : Json) (js : List Json) :
    Json.hasNullArr (j :: js) = (j.hasNull || Json.hasNullArr js) := rfl

@[simp]
theorem hasNullObj_nil : Json.hasNullObj [] = false := rfl

@[simp]
theorem hasNullObj_cons (k : String) (v : Json) (kvs : List (String × Json)) :
    Json.hasNullObj ((k, v) :: kvs) = (v.hasNull || Json.hasNullObj kvs) := rfl

@[simp]
theorem hasNullObj_append (A B : List (String × Json)) :
    Json.hasNullObj (A ++ B) = (Json.hasNullObj A || Json.hasNullObj B) := by
  induction A with
  | nil => simp
  | cons kv rest ih =>
    obtain ⟨k, v⟩ := kv
    simp [ih, Bool.or_assoc]

@[simp]
theorem hasNull_strListJson (xs : List String) : (strListJson xs).hasNull = false := by
  induction xs with
  | nil => rfl
  | cons a as ih => simpa [strListJson] using ih

theorem hasNullArr_map {α : Type} (f : α → Json) (xs : List α)
    (h : ∀ x ∈ xs, (f x).hasNull = false) : Json.hasNullArr (xs.map f) = false := by
  induction xs with
  | nil => rfl
  | cons a as ih =>
    simp only [List.map_cons, hasNullArr_cons, Bool.or_eq_false_iff]
    exact ⟨h a (by simp), ih fun x hx => h x (by simp [hx])⟩

theorem hasNullObj_optField_map {α : Type} (k : String) (o : Option α) (g : α → Json)
    (h : ∀ x, (g x).hasNull = false) :
    Json.hasNullObj (optField k (o.map g)) = false := by
  cases o <;> simp [optField, h]

theorem sampleQuestion_no_null (q : SampleQuestion) : q.to_dict.hasNull = false := by
  simp [SampleQuestion.to_dict]

theorem genieSpaceConfig_no_null (c : GenieSpaceConfig) : c.to_dict.hasNull = false := by
  simp [GenieSpaceConfig.to_dict]
  exact hasNullArr_map _ _ fun x _ => sampleQuestion_no_null x

theorem columnConfig_no_null (c : ColumnConfig) : c.to_dict.hasNull = false := by
  simp [ColumnConfig.to_dict, hasNullObj_optField_map]

theorem table_no_null (t : Table) : t.to_dict.hasNull = false := by
  simp [Table.to_dict, hasNullObj_optField_map]
  exact hasNullObj_optField_map _ _ _ fun cs => by
    simp
    exact hasNullArr_map _ _ fun x _ => columnConfig_no_null x

theorem metricView_no_null (m : MetricView) : m.to_dict.hasNull = false := by
  simp [MetricView.to_dict, hasNullObj_optField_map]

theorem dataSources_no_null (d : DataSources) : d.to_dict.hasNull = false := by
  simp [DataSources.to_dict]
  constructor
  · exact hasNullObj_optField_map _ _ _ fun ts => by
      simp
      exact hasNullArr_map _ _ fun x _ => table_no_null x
  · exact hasNullObj_optField_map _ _ _ fun ms => by
      simp
      exact hasNullArr_map _ _ fun x _ => metricView_no_null x

theorem textInstruction_no_null (t : TextInstruction) : t.to_dict.hasNull = false := by
  simp [TextInstruction.to_dict, hasNullObj_optField_map]

theorem parameter_no_null (p : Parameter) : p.to_dict.hasNull = false := by
  simp [Parameter.to_dict, hasNullObj_optField_map]

theorem exampleQuestionSql_no_null (e : ExampleQuestionSql) :
    e.to_dict.hasNull = false := by
  simp [ExampleQuestionSql.to_dict, hasNullObj_optField_map]
  exact hasNullObj_optField_map _ _ _ fun ps => by
    simp
    exact hasNullArr_map _ _ fun x _ => parameter_no_null x

theorem sqlFunction_no_null (f : SqlFunction) : f.to_dict.hasNull = false := by
  simp [SqlFunction.to_dict]

theorem joinSource_no_null (s : JoinSource) : s.to_dict.hasNull = false := by
  simp [JoinSource.to_dict]

theorem joinSpec_no_null (j : JoinSpec) : j.to_dict.hasNull = false := by
  simp [JoinSpec.to_dict, hasNullObj_optField_map, joinSource_no_null]

theorem instructions_no_null (i : Instructions) : i.to_dict.hasNull = false := by
  simp [Instructions.to_dict]
  refine ⟨?_, ?_, ?_, ?_⟩
  · exact hasNullObj_optField_map _ _ _ fun xs => by
      simp
      exact hasNullArr_map _ _ fun x _ => textInstruction_no_null x
  · exact hasNullObj_optField_map _ _ _ fun xs => by
      simp
      exact hasNullArr_map _ _ fun x _ => exampleQuestionSql_no_null x
  · exact hasNullObj_optField_map _ _ _ fun xs => by
      simp
      exact hasNullArr_map _ _ fun x _ => sqlFunction_no_null x
  · exact hasNullObj_optField_map _ _ _ fun xs => by
      simp
      exact hasNullArr_map _ _ fun x _ => joinSpec_no_null x

theorem benchmarkAnswer_no_null (a : BenchmarkAnswer) : a.to_dict.hasNull = false := by
  simp [BenchmarkAnswer.to_dict]

theorem benchmarkQuestion_no_null (q : BenchmarkQuestion) :
    q.to_dict.hasNull = false := by
  simp [BenchmarkQuestion.to_dict]
  exact hasNullArr_map _ _ fun x _ => benchmarkAnswer_no_null x

theorem benchmarks_no_null (b : Benchmarks) : b.to_dict.hasNull = false := by
  simp [Benchmarks.to_dict]
  exact hasNullArr_map _ _ fun x _ => benchmarkQuestion_no_null x

theorem genieSpaceExport_no_null (e : GenieSpaceExport) : e.to_dict.hasNull = false := by
  simp [GenieSpaceExport.to_dict]
  refine ⟨?_, ?_, ?_, ?_⟩
  · exact hasNullObj_optField_map _ _ _ genieSpaceConfig_no_null
  · exact hasNullObj_optField_map _ _ _ dataSources_no_null
  · exact hasNullObj_optField_map _ _ _ instructions_no_null
  · exact hasNullObj_optField_map _ _ _ benchmarks_no_null

/-! Claim theorems. -/

/-- C2 counterexample: a `ColumnConfig` whose stored `exclude` field holds the
explicit value `False` serializes with the `exclude` key present (with value
`false`) — `exclude_none=True` omits only `None`, so the claimed omission of
false-valued flags does not happen at serialization time. -/
theorem columnConfig_stored_false_flag_is_serialized :
    ColumnConfig.to_dict
        { column_name := "c", description := none, synonyms := none,
          exclude := some false, get_example_values := none,
          build_value_dictionary := none }
      = Json.obj [("column_name", Json.str "c"), ("exclude", Json.bool false)]
  ∧ (ColumnConfig.to_dict
        { column_name := "c", description := none, synonyms := none,
          exclude := some false, get_example_values := none,
          build_value_dictionary := none }).hasKey "exclude" = true :=
  ⟨rfl, rfl⟩

/-- C2 (amended): the false-flag collapse happens in the `create` factory, not
in the serializer — a `ColumnConfig` built via `create` with its boolean flag
arguments `false` stores all three flags as absent, and its serialization
omits all three flag keys (identically to leaving them unset, which is the
same `create` call since `false` is the argument default); a `ColumnConfig`
whose stored field itself holds `False` serializes with the key present. -/
theorem columnConfig_create_false_flags_collapse (n : String) (d : Option String)
    (syn : Option (List String)) :
    (ColumnConfig.create n d syn false false false).exclude = none
  ∧ (ColumnConfig.create n d syn false false false).get_example_values = none
  ∧ (ColumnConfig.create n d syn false false false).build_value_dictionary = none
  ∧ (ColumnConfig.to_dict (ColumnConfig.create n d syn false false false)).hasKey
      "exclude" = false
  ∧ (ColumnConfig.to_dict (ColumnConfig.create n d syn false false false)).hasKey
      "get_example_values" = false
  ∧ (ColumnConfig.to_dict (ColumnConfig.create n d syn false false false)).hasKey
      "build_value_dictionary" = false := by
  refine ⟨rfl, rfl, rfl, ?_, ?_, ?_⟩ <;>
    cases hw : pyWrap d <;> cases syn <;>
      simp [ColumnConfig.create, ColumnConfig.to_dict, Json.hasKey, optField, hw]

/-- C4 counterexample: `Table.create` stores a newline-containing description
as a one-element sequence holding the whole string, not as the sequence of its
lines. -/
theorem table_create_description_not_split :
    (Table.create "c.s.t" (some "a\nb") none).description = some ["a\nb"]
  ∧ (Table.create "c.s.t" (some "a\nb") none).description ≠ some ["a", "b"] := by
  exact ⟨rfl, by decide⟩

/-- C4 (amended): `Table.create`, `ColumnConfig.create`, `MetricView.create`
and `Parameter.create` wrap a non-empty description string as the one-element
sequence `[description]` without any newline splitting (an empty description
is stored as absent); the newline splitting of the spec is performed only by
the `from_text` / `from_sql` constructors. -/
theorem create_wraps_description_as_singleton (d : String) (h : d ≠ "")
    (i n th : String) (cc : Option (List ColumnConfig)) :
    (Table.create i (some d) cc).description = some [d]
  ∧ (ColumnConfig.create n (some d) none false false false).description = some [d]
  ∧ (MetricView.create i (some d)).description = some [d]
  ∧ (Parameter.create n th (some d)).description = some [d] := by
  refine ⟨?_, ?_, ?_, ?_⟩ <;>
    simp [Table.create, ColumnConfig.create, MetricView.create, Parameter.create,
      pyWrap, h]

theorem create_wraps_description_as_singleton_witness :
    (Table.create "c.s.t" (some "a\nb") none).description = some ["a\nb"] :=
  (create_wraps_description_as_singleton "a\nb" (by decide) "c.s.t" "n" "STRING"
    none).1

/-- C7: a `update_space` call supplying only the space id and a (non-empty)
title sends the one-key PATCH payload with exactly the title entry — no
`serialized_space`, `warehouse_id`, `parent_path` or `description` key and no
null-valued key (the empty-string title is the degenerate case settled by the
companion claim about truthiness). -/
theorem update_space_title_only_payload (t : String) (h : t ≠ "") :
    update_space_payload none none none (some t) none = [("title", Json.str t)] := by
  simp [update_space_payload, pyOptEntry, h]

theorem update_space_title_only_payload_witness :
    update_space_payload none none none (some "X") none = [("title", Json.str "X")] :=
  update_space_title_only_payload "X" (by decide)

/-- C10: in the `update_space` payload an empty-string `warehouse_id`,
`parent_path`, `title` or `description` behaves exactly like an unset
argument (the key is omitted), while an empty-string `serialized_space` is
still sent with the empty string as its value. -/
theorem update_space_empty_string_arguments (s : Option SerializedArg)
    (w p t d : Option String) :
    update_space_payload s (some "") p t d = update_space_payload s none p t d
  ∧ update_space_payload s w (some "") t d = update_space_payload s w none t d
  ∧ update_space_payload s w p (some "") d = update_space_payload s w p none d
  ∧ update_space_payload s w p t (some "") = update_space_payload s w p t none
  ∧ ("serialized_space", Json.str "")
      ∈ update_space_payload (some (.text "")) w p t d := by
  refine ⟨?_, ?_, ?_, ?_, ?_⟩ <;>
    simp [update_space_payload, pyOptEntry, serializedText]

/-- C3 counterexample: at the empty string (which has no trailing newline)
`TextInstruction.from_text` stores no line sequence at all — `content` is
absent, so no joined line sequence gives back `""`. -/
theorem textInstruction_from_text_empty_has_no_content :
    (TextInstruction.from_text "" none "g").content = none
  ∧ ¬ ∃ ls, (TextInstruction.from_text "" none "g").content = some ls
        ∧ pyJoin ls = "" := by
  refine ⟨rfl, ?_⟩
  rintro ⟨ls, hls, -⟩
  simp [TextInstruction.from_text] at hls

/-- C3 (amended): `from_text("a\nb\nc")` yields the line sequence
`["a","b","c"]` for both single-string constructors, and joining the stored
line sequence with a newline gives back exactly `s` — for
`TextInstruction.from_text` for every non-empty `s` (the empty string stores
no sequence), and for `SampleQuestion.from_text` for every `s`. -/
theorem from_text_line_splitting (s : String) (i : Option String) (g : String) :
    (TextInstruction.from_text "a\nb\nc" i g).content = some ["a", "b", "c"]
  ∧ (SampleQuestion.from_text "a\nb\nc" i g).question = ["a", "b", "c"]
  ∧ (s ≠ "" →
      ∃ ls, (TextInstruction.from_text s i g).content = some ls ∧ pyJoin ls = s)
  ∧ pyJoin (SampleQuestion.from_text s i g).question = s := by
  have h1 : pySplit "a\nb\nc" = ["a", "b", "c"] := by decide
  have h2 : pyContainsNl "a\nb\nc" = true := by decide
  refine ⟨?_, ?_, fun h => ⟨pySplit s, ?_, pyJoin_pySplit s⟩, ?_⟩
  · simp [TextInstruction.from_text, h1]
  · simp [SampleQuestion.from_text, h1, h2]
  · simp [TextInstruction.from_text, h]
  · by_cases hc : pyContainsNl s <;>
      simp [SampleQuestion.from_text, hc, pyJoin_pySplit, pyJoin_singleton]

theorem from_text_line_splitting_witness :
    (∃ ls, (TextInstruction.from_text "x\ny" none "g").content = some ls
      ∧ pyJoin ls = "x\ny")
  ∧ pyJoin (SampleQuestion.from_text "" none "g").question = "" :=
  ⟨(from_text_line_splitting "x\ny" none "g").2.2.1 (by decide),
    (from_text_line_splitting "" none "g").2.2.2⟩

/-- C5: serializing an export whose optional sections are all absent yields
the JSON object holding only the `version` member, and no serialized export
ever contains a `null` value anywhere (so no key is emitted as `null`). -/
theorem export_omission_rule :
    (∀ ver : Int,
      GenieSpaceExport.to_dict ⟨ver, none, none, none, none⟩
        = Json.obj [("version", Json.num ver)])
  ∧ ∀ v : GenieSpaceExport, v.to_dict.hasNull = false :=
  ⟨fun ver => rfl, genieSpaceExport_no_null⟩

/-- C1: for every export value whose column configurations carry no boolean
flag explicitly stored as `False` (the exclusion stated by the round-trip
contract), validating the serialized form gives back an equal value:
`from_dict (to_dict v) = ok v` field-wise.  JSON text encoding is the
external codec boundary, so the round trip is settled at the JSON-value
level (`to_dict`/`from_dict`, the value forms of `to_json`/`from_json`). -/
theorem export_roundtrip_contract (v : GenieSpaceExport)
    (h : v.hasFalseFlag = false) :
    GenieSpaceExport.from_dict v.to_dict = .ok v :=
  genieSpaceExport_roundtrip v

set_option maxRecDepth 4000 in
/-- Supporting evidence that the text codec preserves the value-level round
trip: on a concrete export with a populated section of every kind,
`from_json (to_json e)` evaluates back to `e` through the executable JSON
renderer and parser. -/
theorem export_to_json_from_json_concrete :
    GenieSpaceExport.from_json
      (GenieSpaceExport.to_json
        ⟨1, some ⟨[⟨"q1", ["What is revenue?"]⟩]⟩,
          some ⟨some [⟨"c.s.orders", some ["Orders"],
              some [⟨"order_id", none, none, none, none, some true⟩]⟩],
            some [⟨"c.s.mv", none⟩]⟩,
          none,
          some ⟨[⟨"b1", ["Total?"], [⟨.SQL, ["SELECT 1"]⟩]⟩]⟩⟩)
      = .ok ⟨1, some ⟨[⟨"q1", ["What is revenue?"]⟩]⟩,
          some ⟨some [⟨"c.s.orders", some ["Orders"],
              some [⟨"order_id", none, none, none, none, some true⟩]⟩],
            some [⟨"c.s.mv", none⟩]⟩,
          none,
          some ⟨[⟨"b1", ["Total?"], [⟨.SQL, ["SELECT 1"]⟩]⟩]⟩⟩ := rfl

theorem export_roundtrip_contract_witness :
    GenieSpaceExport.hasFalseFlag
        ⟨1, some ⟨[⟨"q1", ["What is revenue?"]⟩]⟩,
          some ⟨some [⟨"c.s.orders", some ["Orders"],
              some [⟨"order_id", none, none, none, none, some true⟩]⟩],
            some [⟨"c.s.mv", none⟩]⟩,
          none,
          some ⟨[⟨"b1", ["Total?"], [⟨.SQL, ["SELECT 1"]⟩]⟩]⟩⟩ = false
  ∧ GenieSpaceExport.from_dict
      (GenieSpaceExport.to_dict
        ⟨1, some ⟨[⟨"q1", ["What is revenue?"]⟩]⟩,
          some ⟨some [⟨"c.s.orders", some ["Orders"],
              some [⟨"order_id", none, none, none, none, some true⟩]⟩],
            some [⟨"c.s.mv", none⟩]⟩,
          none,
          some ⟨[⟨"b1", ["Total?"], [⟨.SQL, ["SELECT 1"]⟩]⟩]⟩⟩)
      = .ok ⟨1, some ⟨[⟨"q1", ["What is revenue?"]⟩]⟩,
          some ⟨some [⟨"c.s.orders", some ["Orders"],
              some [⟨"order_id", none, none, none, none, some true⟩]⟩],
            some [⟨"c.s.mv", none⟩]⟩,
          none,
          some ⟨[⟨"b1", ["Total?"], [⟨.SQL, ["SELECT 1"]⟩]⟩]⟩⟩ :=
  ⟨by decide, export_roundtrip_contract _ (by decide)⟩

theorem jsonGetMessage_obj (kvs : List (String × Json)) (d : String) :
    ∃ m, jsonGetMessage (.obj kvs) d = .ok m := by
  rcases hl : lookupKv kvs "message" with - | j
  · exact ⟨d, by simp [jsonGetMessage, hl]⟩
  · cases j with
    | null => exact ⟨Json.null.render, by simp [jsonGetMessage, hl]⟩
    | bool b => exact ⟨(Json.bool b).render, by simp [jsonGetMessage, hl]⟩
    | num n => exact ⟨(Json.num n).render, by simp [jsonGetMessage, hl]⟩
    | str s => exact ⟨s, by simp [jsonGetMessage, hl]⟩
    | arr xs => exact ⟨(Json.arr xs).render, by simp [jsonGetMessage, hl]⟩
    | obj ms => exact ⟨(Json.obj ms).render, by simp [jsonGetMessage, hl]⟩

/-- C6 counterexample: a 404 response whose body decodes to a non-object JSON
value (here `[]`) makes the `message` lookup crash with an `AttributeError`
instead of raising `NotFoundError` — so the claimed status mapping does not
hold for every HTTP response. -/
theorem handle_response_404_non_object_body_crashes :
    handle_response ⟨404, "[]"⟩
      = .error (.attribute "get: the parsed body is not an object") := rfl

/-- C6 (amended): for every response whose decoded body is a JSON object —
which includes every non-JSON body, replaced by the raw-text placeholder
object — status 401 raises `AuthenticationError`, 404 `NotFoundError`, 400
`ValidationError`, any other status of 400 and above the generic
`GenieSpacesError`, and lower statuses raise nothing; every raised error
carries a message, the numeric status code and the decoded (or placeholder)
body.  The 401 branch holds for arbitrary bodies; a 404/400/other-error
response whose body decodes to a non-object JSON value instead crashes with
an `AttributeError` (see the counterexample). -/
theorem handle_response_error_taxonomy (r : HttpResponse) :
    (r.status = 401 → handle_response r
      = .error (.genie
          { kind := .authentication
            message := "Authentication failed. Check your token and permissions."
            status_code := some r.status
            response := some (respData r) }))
  ∧ (r.status = 404 → (∃ kvs, respData r = Json.obj kvs) →
      ∃ m, handle_response r
        = .error (.genie
            { kind := .notFound
              message := "Resource not found: " ++ m
              status_code := some r.status
              response := some (respData r) }))
  ∧ (r.status = 400 → (∃ kvs, respData r = Json.obj kvs) →
      ∃ m, handle_response r
        = .error (.genie
            { kind := .validation
              message := "Validation error: " ++ m
              status_code := some r.status
              response := some (respData r) }))
  ∧ (400 ≤ r.status → r.status ≠ 401 → r.status ≠ 404 → r.status ≠ 400 →
      (∃ kvs, respData r = Json.obj kvs) →
      ∃ m, handle_response r
        = .error (.genie
            { kind := .genie
              message := "API error: " ++ m
              status_code := some r.status
              response := some (respData r) }))
  ∧ (r.status < 400 → handle_response r = .ok (respData r))
  ∧ (Json.parse r.text = none →
      respData r = Json.obj [("raw", Json.str r.text)]) := by
  refine ⟨?_, ?_, ?_, ?_, ?_, ?_⟩
  · intro h401
    simp [handle_response, h401]
  · intro h404 hobj
    obtain ⟨kvs, hk⟩ := hobj
    obtain ⟨m, hm⟩ := jsonGetMessage_obj kvs "Unknown"
    refine ⟨m, ?_⟩
    simp [handle_response, h404, hk, hm]
  · intro h400 hobj
    obtain ⟨kvs, hk⟩ := hobj
    obtain ⟨m, hm⟩ := jsonGetMessage_obj kvs "Unknown"
    refine ⟨m, ?_⟩
    simp [handle_response, h400, hk, hm]
  · intro hge h1 h2 h3 hobj
    obtain ⟨kvs, hk⟩ := hobj
    obtain ⟨m, hm⟩ := jsonGetMessage_obj kvs r.text
    refine ⟨m, ?_⟩
    simp [handle_response, h1, h2, h3, hge, hk, hm]
  · intro hlt
    have h1 : r.status ≠ 401 := by omega
    have h2 : r.status ≠ 404 := by omega
    have h3 : r.status ≠ 400 := by omega
    have h4 : ¬ 400 ≤ r.status := by omega
    simp [handle_response, h1, h2, h3, h4]
  · intro hp
    simp [respData, hp]

theorem handle_response_error_taxonomy_witness :
    ∃ m, handle_response ⟨404, "x"⟩
      = .error (.genie
          { kind := .notFound
            message := "Resource not found: " ++ m
            status_code := some 404
            response := some (respData ⟨404, "x"⟩) }) :=
  (handle_response_error_taxonomy ⟨404, "x"⟩).2.1 rfl ⟨[("raw", Json.str "x")], rfl⟩

/-- C9: `get_export` yields no document exactly when `serialized_space` is
absent or the empty string, and otherwise yields the result of parsing that
string; as a pure function it is idempotent and leaves the response value
untouched by construction. -/
theorem get_export_spec (r : SpaceResponse) :
    (r.get_export = .ok none
      ↔ r.serialized_space = none ∨ r.serialized_space = some "")
  ∧ (∀ s, r.serialized_space = some s → s ≠ "" →
      r.get_export = (GenieSpaceExport.from_json s).map some) := by
  constructor
  · constructor
    · intro h
      rcases hr : r.serialized_space with - | s
      · exact Or.inl rfl
      · by_cases hs : s = ""
        · subst hs
          exact Or.inr rfl
        · exfalso
          simp [SpaceResponse.get_export, hr, hs] at h
          cases hj : GenieSpaceExport.from_json s <;> simp [hj, Except.map] at h
    · intro h
      rcases h with h | h <;> simp [SpaceResponse.get_export, h]
  · intro s hs hne
    simp [SpaceResponse.get_export, hs, hne]

theorem get_export_spec_witness :
    SpaceResponse.get_export ⟨"i", "t", none, none, some "1"⟩
      = (GenieSpaceExport.from_json "1").map some :=
  (get_export_spec ⟨"i", "t", none, none, some "1"⟩).2 "1" rfl (by decide)

/-- C8: after the source space has been exported, `clone_space` without an
explicit title imports with the source title suffixed by the literal
`" (Copy)"`, without an explicit description it passes the source description
through verbatim, and when the source export carries no embedded document
(absent or empty `serialized_space`) it fails with the generic client error —
the error result meaning `import_space` is never invoked. -/
theorem clone_space_defaults (source : SpaceResponse) (wh pp : String) :
    (∀ e d, source.get_export = .ok (some e) →
      (clone_space source wh pp none d).map ImportArgs.title
        = .ok (some (source.title ++ " (Copy)")))
  ∧ (∀ e t, source.get_export = .ok (some e) →
      (clone_space source wh pp t none).map ImportArgs.description
        = .ok source.description)
  ∧ (∀ t d, source.serialized_space = none ∨ source.serialized_space = some "" →
      clone_space source wh pp t d
        = .error (.genie
            { kind := .genie
              message := "Source space export returned empty serialized_space"
              status_code := none
              response := none })) := by
  refine ⟨?_, ?_, ?_⟩
  · intro e d h
    simp [clone_space, h, pyOr, Except.map]
  · intro e t h
    simp [clone_space, h, pyOrOpt, Except.map]
  · intro t d h
    have hnone : source.get_export = .ok none := by
      rcases h with h | h <;> simp [SpaceResponse.get_export, h]
    simp [clone_space, hnone]

theorem clone_space_defaults_witness :
    (clone_space ⟨"id", "T", some "D", none, some "\x7b\x7d"⟩ "w" "p" none none).map
        ImportArgs.title = .ok (some ("T" ++ " (Copy)"))
  ∧ (clone_space ⟨"id", "T", some "D", none, some "\x7b\x7d"⟩ "w" "p" none none).map
        ImportArgs.description = .ok (some "D")
  ∧ clone_space ⟨"id", "T", some "D", none, some ""⟩ "w" "p" none none
      = .error (.genie
          { kind := .genie
            message := "Source space export returned empty serialized_space"
            status_code := none
            response := none }) :=
  ⟨(clone_space_defaults ⟨"id", "T", some "D", none, some "\x7b\x7d"⟩ "w" "p").1
      ⟨1, none, none, none, none⟩ none rfl,
    (clone_space_defaults ⟨"id", "T", some "D", none, some "\x7b\x7d"⟩ "w" "p").2.1
      ⟨1, none, none, none, none⟩ none rfl,
    (clone_space_defaults ⟨"id", "T", some "D", none, some ""⟩ "w" "p").2.2
      none none (Or.inr rfl)⟩

end GenieSpaces
